import Mathlib

/-!
Shallow embedding of the veriscope-ai-backend report/scoring core
(routes/reports.ts, models/Report.ts, models/Product.ts).

JavaScript numbers are modelled as exact rationals together with a
marker for the non-finite values (NaN, plus/minus Infinity); the code
only ever branches on Number.isFinite before using a value, so this
separation is faithful for the scorer.  Math.round is JavaScript
rounding (half toward positive infinity), Math.floor is the integer
floor.  Math.random() draws are made explicit parameters in [0,1).
-/

namespace Veriscope

/-- A JavaScript number: a finite rational or a non-finite value. -/
inductive JSNum where
  | fin (q : ℚ)
  | nonfinite
  deriving DecidableEq, Repr

/-- Number.isFinite. -/
def JSNum.isFinite : JSNum → Bool
  | .fin _ => true
  | .nonfinite => false

/-- JavaScript Math.round: round half toward positive infinity. -/
def jround (q : ℚ) : ℤ := ⌊q + 1/2⌋

/-- Math.max lo (Math.min hi x). -/
def clamp (lo hi x : ℤ) : ℤ := max lo (min hi x)

/-- Char-list version of a prefix test (used to embed String.includes). -/
def charsHasPre : List Char → List Char → Bool
  | [], _ => true
  | _ :: _, [] => false
  | c :: cs, d :: ds => c == d && charsHasPre cs ds

/-- JavaScript String.prototype.includes: substring containment. -/
def strIncludes (s sub : String) : Bool :=
  s.data.tails.any (fun t => charsHasPre sub.data t)

/-- JavaScript String.prototype.toLowerCase, character-wise (the category
strings are ASCII, where this agrees with Unicode simple lowercasing). -/
def strToLower (s : String) : String :=
  ⟨s.data.map Char.toLower⟩

/--
The result object handed to deriveTransparencyScore (either the AI
service response body or the local fallback).  Each optional field
holds the value of Number(field) when the field is present and non-null
(`none` models absent/null, so the whole object being absent is the
all-`none` record); `questions`/`expectedQuestions` record the length
of the corresponding array when the field is an array.
-/
structure AiResult where
  transparencyScore : Option JSNum := none
  score : Option JSNum := none
  questions : Option Nat := none
  expectedQuestions : Option Nat := none
  deriving DecidableEq, Repr

/-- Number(aiResult?.transparencyScore ?? aiResult?.score);
Number(undefined) is NaN, i.e. non-finite. -/
def AiResult.baseFromAI (a : AiResult) : JSNum :=
  match a.transparencyScore with
  | some v => v
  | none =>
    match a.score with
    | some v => v
    | none => .nonfinite

/-- Array.isArray(aiResult?.questions) ? length : (expectedQuestions likewise : null). -/
def AiResult.aiQuestionsCount (a : AiResult) : Option Nat :=
  match a.questions with
  | some n => some n
  | none => a.expectedQuestions

/-- The fallback baseline Math.floor(Math.random() * 40) + 40, with the
Math.random() draw rnd passed explicitly. -/
def fallbackBase (rnd : ℚ) : ℤ := ⌊rnd * 40⌋ + 40

/-- The scorer base: the AI score rounded then clamped to [0,100] when
finite, otherwise the random fallback baseline. -/
def baseOf (a : AiResult) (rnd : ℚ) : ℤ :=
  match a.baseFromAI with
  | .fin b => clamp 0 100 (jround b)
  | .nonfinite => fallbackBase rnd

/-- Completeness ratio.  `answers` is Object.keys of the submitted answers
object when it is an object (`none` models a non-object value, giving
providedAnswersCount 0).  questionCount > 0 guards the division. -/
def ratioOf (a : AiResult) (answers : Option (List String)) : ℚ :=
  let provided : ℕ := (answers.map List.length).getD 0
  let questionCount : ℕ := a.aiQuestionsCount.getD (max 1 provided)
  if questionCount > 0 then min 1 ((provided : ℚ) / questionCount) else 0

/-- Category sensitivity table: lower-cased category matched by substring. -/
def categoryBoost (category : String) : ℤ :=
  let c := strToLower category
  if strIncludes c "skincare" then 5
  else if strIncludes c "food" then 4
  else if strIncludes c "personal" || strIncludes c "care" then 3
  else if strIncludes c "cleaning" then 3
  else if strIncludes c "clothing" || strIncludes c "apparel" then 2
  else if strIncludes c "electronics" then 1
  else 0

/-- The weighting and boost/penalty step of the scorer, before the final
clamp: computed = round(base*0.6 + round(ratio*100)*0.4), then plus the
category boost when the ratio is at least 0.5, else minus
max(0, floor((1 - ratio)*5)). -/
def combineRaw (base : ℤ) (completeness : ℚ) (boost : ℤ) : ℤ :=
  let completenessPercent : ℤ := jround (completeness * 100)
  let computed : ℤ :=
    jround ((base : ℚ) * (6/10) + (completenessPercent : ℚ) * (4/10))
  if completeness ≥ 1/2 then computed + boost
  else computed - max 0 ⌊(1 - completeness) * 5⌋

/-- deriveTransparencyScore before its final clamp to [0,100]. -/
def deriveRaw (a : AiResult) (category : String)
    (answers : Option (List String)) (rnd : ℚ) : ℤ :=
  combineRaw (baseOf a rnd) (ratioOf a answers) (categoryBoost category)

/-- deriveTransparencyScore from routes/reports.ts, with the
Math.random() draw rnd passed explicitly. -/
def deriveTransparencyScore (a : AiResult) (category : String)
    (answers : Option (List String)) (rnd : ℚ) : ℤ :=
  clamp 0 100 (deriveRaw a category answers rnd)

/-! ## Data model (models/Product.ts, models/Report.ts, models/User.ts) -/

/-- Report status enum. -/
inductive Status where
  | draft | pending | completed
  deriving DecidableEq, Repr

/-- User role enum. -/
inductive Role where
  | admin | user
  deriving DecidableEq, Repr

/-- The authenticated requester resolved by the protect middleware. -/
structure Actor where
  id : Nat
  role : Role
  deriving DecidableEq, Repr

/-- The fields of a Product the report routes consume. -/
structure Product where
  id : Nat
  name : String
  category : String
  deriving DecidableEq, Repr

/-- The analysis object of a report. -/
structure Analysis where
  strengths : List String
  improvements : List String
  recommendations : List String
  deriving DecidableEq, Repr

/-- A persisted Report document.  `answers` holds Object.keys of the
submitted answers object; userId is optional in the interface
(`userId?:` in models/Report.ts). -/
structure Report where
  id : Nat
  productId : Nat
  userId : Option Nat
  summary : String
  transparencyScore : ℤ
  analysis : Analysis
  answers : List String
  status : Status
  deriving DecidableEq, Repr

/-- The document store reached by the routes. -/
structure Store where
  products : List Product
  reports : List Report
  nextReportId : Nat
  deriving DecidableEq, Repr

/-! ## AI Gateway result and local fallback (routes/reports.ts 197-215) -/

/-- The body returned by POST AI_SERVICE_URL/api/ai/analyze-product, or
the local fallback object.  Optional numeric fields are the values seen
through the Number() coercion, as in AiResult. -/
structure AnalysisResult where
  summary : String
  transparencyScore : Option JSNum := none
  score : Option JSNum := none
  questions : Option Nat := none
  expectedQuestions : Option Nat := none
  analysis : Analysis
  deriving DecidableEq, Repr

/-- Reading an analysis body as the aiResult seen by the scorer. -/
def AnalysisResult.toAiResult (a : AnalysisResult) : AiResult :=
  { transparencyScore := a.transparencyScore
    score := a.score
    questions := a.questions
    expectedQuestions := a.expectedQuestions }

/-- The local fallback analysis built when the axios call to the AI
service throws, with its Math.random() draw passed explicitly.  Note
it DOES set transparencyScore, to Math.floor(Math.random()*40)+40. -/
def fallbackAnalysis (productName : String) (rnd : ℚ) : AnalysisResult :=
  { summary := "Analysis for " ++ productName ++
      ": This product shows basic transparency with room for improvement."
    transparencyScore := some (.fin ((⌊rnd * 40⌋ + 40 : ℤ) : ℚ))
    analysis :=
      { strengths := ["Product information provided", "Basic ingredient list available"]
        improvements := ["Add sustainability data", "Include certification details"]
        recommendations := ["Provide sourcing details", "Add eco-impact information"] } }

/-! ## Report routes (routes/reports.ts) -/

/-- Which collaborators a request handler actually invoked, in order. -/
inductive Effect where
  | aiCall | scorerCall | reportWrite
  deriving DecidableEq, Repr

/-- Status-coded responses of the report routes. -/
inductive CreateResponse where
  | badRequest
  | notFound
  | created (r : Report)
  deriving DecidableEq, Repr

/-- POST /api/reports.  `answers` is `some keys` when the validated body
carried an answers object (express-validator rejects non-objects with
400 before the handler runs); aiOutcome is the outcome of the axios
call to the AI service; rndFallback and rndScorer are the Math.random()
draws available to the fallback object and to the scorer. -/
def createReport (st : Store) (actor : Actor) (productId : Nat)
    (answers : Option (List String)) (aiOutcome : Except Unit AnalysisResult)
    (rndFallback rndScorer : ℚ) : CreateResponse × Store × List Effect :=
  match answers with
  | none => (.badRequest, st, [])
  | some ans =>
    match st.products.find? (fun p => p.id == productId) with
    | none => (.notFound, st, [])
    | some product =>
      let aiAnalysis : AnalysisResult :=
        match aiOutcome with
        | .ok a => a
        | .error _ => fallbackAnalysis product.name rndFallback
      let computedScore :=
        deriveTransparencyScore aiAnalysis.toAiResult product.category (some ans) rndScorer
      let report : Report :=
        { id := st.nextReportId
          productId := productId
          userId := some actor.id
          summary := aiAnalysis.summary
          transparencyScore := computedScore
          analysis := aiAnalysis.analysis
          answers := ans
          status := .completed }
      (.created report,
        { st with
            reports := st.reports ++ [report]
            nextReportId := st.nextReportId + 1 },
        [.aiCall, .scorerCall, .reportWrite])

/-- The ownership test of the single-report routes:
req.user && report.userId && report.userId !== req.user._id && req.user.role !== admin. -/
def ownershipForbidden (actor : Actor) (r : Report) : Bool :=
  match r.userId with
  | some owner => owner != actor.id && actor.role != Role.admin
  | none => false

/-- Status-coded responses of the single-report routes. -/
inductive ApiResponse (α : Type) where
  | ok (a : α)
  | badRequest
  | notFound
  | forbidden
  deriving DecidableEq, Repr

/-- GET /api/reports/:id. -/
def getReport (st : Store) (actor : Actor) (id : Nat) : ApiResponse Report × Store :=
  match st.reports.find? (fun r => r.id == id) with
  | none => (.notFound, st)
  | some r =>
    if ownershipForbidden actor r then (.forbidden, st) else (.ok r, st)

/-- The optional fields of a PUT /api/reports/:id body. -/
structure ReportUpdate where
  summary : Option String := none
  transparencyScore : Option ℤ := none
  status : Option Status := none
  answers : Option (List String) := none
  deriving DecidableEq, Repr

/-- The express-validator chain of PUT /api/reports/:id. -/
def validUpdate (u : ReportUpdate) : Bool :=
  (match u.summary with
   | some s => s.length ≤ 2000
   | none => true) &&
  (match u.transparencyScore with
   | some s => 0 ≤ s && s ≤ 100
   | none => true)

/-- Object.assign(report, req.body): partial field merge. -/
def applyUpdate (r : Report) (u : ReportUpdate) : Report :=
  { r with
      summary := u.summary.getD r.summary
      transparencyScore := u.transparencyScore.getD r.transparencyScore
      status := u.status.getD r.status
      answers := u.answers.getD r.answers }

/-- PUT /api/reports/:id. -/
def updateReport (st : Store) (actor : Actor) (id : Nat) (u : ReportUpdate) :
    ApiResponse Report × Store :=
  if !validUpdate u then (.badRequest, st)
  else
    match st.reports.find? (fun r => r.id == id) with
    | none => (.notFound, st)
    | some r =>
      if ownershipForbidden actor r then (.forbidden, st)
      else
        let updated := applyUpdate r u
        (.ok updated,
          { st with
              reports := st.reports.map (fun x => if x.id == id then updated else x) })

/-- DELETE /api/reports/:id. -/
def deleteReport (st : Store) (actor : Actor) (id : Nat) : ApiResponse Unit × Store :=
  match st.reports.find? (fun r => r.id == id) with
  | none => (.notFound, st)
  | some r =>
    if ownershipForbidden actor r then (.forbidden, st)
    else (.ok (), { st with reports := st.reports.filter (fun x => !(x.id == id)) })

/-- The validated query parameters of GET /api/reports. -/
structure ListQuery where
  page : Nat := 1
  limit : Nat := 10
  status : Option Status := none
  minScore : Option ℤ := none
  maxScore : Option ℤ := none
  deriving DecidableEq, Repr

/-- The Mongo filter document built by GET /api/reports: the caller's
userId (the protect middleware guarantees req.user._id), plus the
optional status and score-range conditions. -/
def matchesFilter (uid : Nat) (q : ListQuery) (r : Report) : Bool :=
  r.userId == some uid &&
  (match q.status with
   | some s => r.status == s
   | none => true) &&
  (match q.minScore with
   | some m => decide (m ≤ r.transparencyScore)
   | none => true) &&
  (match q.maxScore with
   | some m => decide (r.transparencyScore ≤ m)
   | none => true)

/-- GET /api/reports: Report.find(filter).skip((page-1)*limit).limit(limit).
The createdAt-descending sort only permutes the filtered list and is
omitted; every returned document still satisfies the filter. -/
def listReports (st : Store) (uid : Nat) (q : ListQuery) : List Report :=
  (((st.reports.filter (matchesFilter uid q)).drop ((q.page - 1) * q.limit)).take q.limit)

/-- The match stage of GET /api/reports/stats/overview:
userId ? match userId : match everything. -/
def scopedReports (st : Store) (uid : Option Nat) : List Report :=
  match uid with
  | some u => st.reports.filter (fun r => r.userId == some u)
  | none => st.reports

/-- The overview group emitted by the stats aggregation, or the zeroed
defaults substituted when the aggregation returns no row. -/
structure Overview where
  totalReports : Nat
  averageScore : ℚ
  maxScore : ℤ
  minScore : ℤ
  completedReports : Nat
  pendingReports : Nat
  draftReports : Nat
  deriving DecidableEq, Repr

/-- GET /api/reports/stats/overview overview part: the group stage over
the scoped set when it is non-empty, else the zeroed default object
(stats[0] || defaults).  $avg, $max, $min over the scored documents. -/
def statsOverview (st : Store) (uid : Option Nat) : Overview :=
  match scopedReports st uid with
  | [] =>
    { totalReports := 0, averageScore := 0, maxScore := 0, minScore := 0
      completedReports := 0, pendingReports := 0, draftReports := 0 }
  | r :: rs =>
    let scores := (r :: rs).map Report.transparencyScore
    { totalReports := (r :: rs).length
      averageScore := ((scores.map (Int.cast : ℤ → ℚ)).sum) / ((r :: rs).length : ℚ)
      maxScore := rs.foldl (fun acc x => max acc x.transparencyScore) r.transparencyScore
      minScore := rs.foldl (fun acc x => min acc x.transparencyScore) r.transparencyScore
      completedReports := ((r :: rs).filter (fun x => x.status == .completed)).length
      pendingReports := ((r :: rs).filter (fun x => x.status == .pending)).length
      draftReports := ((r :: rs).filter (fun x => x.status == .draft)).length }

/-- The buckets produced by the $bucket stage with boundaries
[0, 20, 40, 60, 80, 100] and default Other. -/
inductive Bucket where
  | b0 | b20 | b40 | b60 | b80 | other
  deriving DecidableEq, Repr

/-- MongoDB $bucket semantics: each adjacent boundary pair gives a
bucket with inclusive lower and exclusive upper bound; a value outside
every bucket goes to the default bucket. -/
def bucketOf (score : ℤ) : Bucket :=
  if 0 ≤ score ∧ score < 20 then .b0
  else if 20 ≤ score ∧ score < 40 then .b20
  else if 40 ≤ score ∧ score < 60 then .b40
  else if 60 ≤ score ∧ score < 80 then .b60
  else if 80 ≤ score ∧ score < 100 then .b80
  else .other

/-- The count of scoped reports falling in a given bucket of the
scoreDistribution aggregation. -/
def scoreDistribution (st : Store) (uid : Option Nat) (b : Bucket) : Nat :=
  ((scopedReports st uid).filter (fun r => bucketOf r.transparencyScore == b)).length

/-- The combination step as the specification words it: round(base*0.6 +
round(ratio*100)*0.4), then plus the category boost when the ratio is at
least 0.5, else minus floor((1 - ratio)*5). -/
def specCombine (base : ℤ) (completeness : ℚ) (boost : ℤ) : ℤ :=
  jround ((base : ℚ) * (6/10) + (jround (completeness * 100) : ℚ) * (4/10)) +
    (if completeness ≥ 1/2 then boost else -⌊(1 - completeness) * 5⌋)

/-! ## Helper lemmas -/

theorem clamp_0_100_mem (x : ℤ) : 0 ≤ clamp 0 100 x ∧ clamp 0 100 x ≤ 100 := by
  unfold clamp
  constructor <;> omega

theorem categoryBoost_skincare : categoryBoost "Skincare" = 5 := by decide

theorem categoryBoost_other : categoryBoost "Other" = 0 := by decide

/-! ## Claim theorems -/

/-- C1: for every input (aiResult of any shape, including absent or
malformed, i.e. with non-finite or missing score fields; any product
category string; any answers mapping, object or not; any Math.random()
draw), deriveTransparencyScore returns an integer in [0, 100]. -/
theorem scorer_output_in_range (a : AiResult) (category : String)
    (answers : Option (List String)) (rnd : ℚ) :
    0 ≤ deriveTransparencyScore a category answers rnd ∧
    deriveTransparencyScore a category answers rnd ≤ 100 := by
  unfold deriveTransparencyScore
  exact clamp_0_100_mem _

/-- C2: the combination step computes round(base*0.6 +
round(ratio*100)*0.4), then adds the category boost when the ratio is
at least 0.5 and otherwise subtracts floor((1 - ratio)*5), the
subtraction never being a positive adjustment; base 70 with ratio 1 and
the Skincare boost 5 yields 87, and base 50 with ratio 0.2 yields 34. -/
theorem scorer_formula (base boost : ℤ) (completeness : ℚ)
    (_h0 : 0 ≤ completeness) (h1 : completeness ≤ 1) :
    combineRaw base completeness boost = specCombine base completeness boost ∧
    (completeness < 1/2 →
      combineRaw base completeness boost ≤
        jround ((base : ℚ) * (6/10) + (jround (completeness * 100) : ℚ) * (4/10))) ∧
    deriveTransparencyScore ⟨some (.fin 70), none, none, none⟩ "Skincare" (some ["a","b"]) 0 = 87 ∧
    deriveTransparencyScore ⟨some (.fin 50), none, some 5, none⟩ "Other" (some ["a"]) 0 = 34 := by
  have hfl : (0:ℤ) ≤ ⌊(1 - completeness) * 5⌋ := by
    apply Int.floor_nonneg.mpr
    nlinarith
  refine ⟨?_, ?_, ?_, ?_⟩
  · unfold combineRaw specCombine
    dsimp only
    split_ifs with h
    · rfl
    · omega
  · intro h2
    unfold combineRaw
    dsimp only
    rw [if_neg (by exact not_le.mpr h2)]
    omega
  · norm_num [deriveTransparencyScore, deriveRaw, combineRaw, baseOf, ratioOf,
      AiResult.baseFromAI, AiResult.aiQuestionsCount, jround, clamp, fallbackBase,
      categoryBoost_skincare]
  · norm_num [deriveTransparencyScore, deriveRaw, combineRaw, baseOf, ratioOf,
      AiResult.baseFromAI, AiResult.aiQuestionsCount, jround, clamp, fallbackBase,
      categoryBoost_other]

/-- Witness for scorer_formula at base 70, ratio 1, boost 5. -/
theorem scorer_formula_witness :
    combineRaw 70 1 5 = specCombine 70 1 5 :=
  (scorer_formula 70 5 1 zero_le_one (le_refl 1)).1

/-- C10: when the AI result carries a finite numeric transparencyScore
(or score) s, the scorer's base is round(s) clamped to [0, 100] — the
score is rounded before clamping and weighting; a finite AI score of
65.5 gives base 66, and the final score 80 for one answered question in
an unboosted category, independently of the random draw. -/
theorem scorer_base_rounds_ai_score (a : AiResult) (rnd : ℚ) (s : ℚ)
    (h : a.baseFromAI = .fin s) :
    baseOf a rnd = clamp 0 100 ⌊s + 1/2⌋ ∧
    baseOf ⟨some (.fin (131/2)), none, none, none⟩ rnd = 66 ∧
    deriveTransparencyScore ⟨some (.fin (131/2)), none, none, none⟩ "Other" (some ["k"]) rnd = 80 := by
  refine ⟨?_, ?_, ?_⟩
  · unfold baseOf
    rw [h]
    rfl
  · norm_num [baseOf, AiResult.baseFromAI, jround, clamp]
  · norm_num [deriveTransparencyScore, deriveRaw, combineRaw, baseOf, ratioOf,
      AiResult.baseFromAI, AiResult.aiQuestionsCount, jround, clamp,
      categoryBoost_other]

/-- Witness for scorer_base_rounds_ai_score at the AI score 65.5. -/
theorem scorer_base_rounds_ai_score_witness :
    baseOf ⟨some (.fin (131/2)), none, none, none⟩ 0 = clamp 0 100 ⌊(131/2 : ℚ) + 1/2⌋ :=
  (scorer_base_rounds_ai_score ⟨some (.fin (131/2)), none, none, none⟩ 0 (131/2) rfl).1

/-- C3 counterexample: with no AI score available, two runs of the
scorer on identical visible inputs return different scores for
different Math.random() draws — the fallback baseline is drawn from
hard system randomness inline, not from an injectable source. -/
theorem scorer_random_draw_counterexample :
    deriveTransparencyScore ⟨none, none, none, none⟩ "Other" (some ["k"]) 0 ≠
    deriveTransparencyScore ⟨none, none, none, none⟩ "Other" (some ["k"]) (99/100) := by
  norm_num [deriveTransparencyScore, deriveRaw, combineRaw, baseOf, ratioOf,
    AiResult.baseFromAI, AiResult.aiQuestionsCount, jround, clamp, fallbackBase,
    categoryBoost_other]

/-- C3 amended: the scorer is a pure function of its inputs plus the
Math.random() draw.  When a finite AI score is present the draw is
irrelevant (two runs agree for any pair of draws); when it is absent
the baseline Math.floor(rnd*40)+40 lies in [40, 79] for any draw in
[0, 1), so the scorer is deterministic only once the drawn value is
fixed. -/
theorem scorer_determinism_amended (a : AiResult) (category : String)
    (answers : Option (List String)) (rnd rnd' : ℚ) :
    ((∃ s, a.baseFromAI = .fin s) →
      deriveTransparencyScore a category answers rnd =
        deriveTransparencyScore a category answers rnd') ∧
    (0 ≤ rnd → rnd < 1 → 40 ≤ fallbackBase rnd ∧ fallbackBase rnd ≤ 79) := by
  constructor
  · rintro ⟨s, hs⟩
    simp only [deriveTransparencyScore, deriveRaw, baseOf, hs]
  · intro hlo hhi
    have h0 : (0:ℤ) ≤ ⌊rnd * 40⌋ := Int.floor_nonneg.mpr (by positivity)
    have h1 : ⌊rnd * 40⌋ < 40 := by
      apply Int.floor_lt.mpr
      push_cast
      nlinarith
    unfold fallbackBase
    omega

/-- Witness for scorer_determinism_amended: draws 0 and 1 agree when a
finite AI score 70 is present, and the draw 0 baseline is in range. -/
theorem scorer_determinism_amended_witness :
    deriveTransparencyScore ⟨some (.fin 70), none, none, none⟩ "Skincare" (some ["a"]) 0 =
      deriveTransparencyScore ⟨some (.fin 70), none, none, none⟩ "Skincare" (some ["a"]) 1 ∧
    40 ≤ fallbackBase 0 ∧ fallbackBase 0 ≤ 79 :=
  ⟨(scorer_determinism_amended ⟨some (.fin 70), none, none, none⟩ "Skincare" (some ["a"]) 0 1).1 ⟨70, rfl⟩,
   (scorer_determinism_amended ⟨none, none, none, none⟩ "Skincare" (some ["a"]) 0 1).2 (le_refl 0) zero_lt_one⟩

/-- C4 counterexample: the fallback AnalysisResult does NOT omit
transparencyScore — for product name P and Math.random() draw 0.5 it
carries the finite value 60, so the scorer's own fallback-baseline
branch is not taken. -/
theorem fallback_includes_score_counterexample :
    (fallbackAnalysis "P" (1/2)).transparencyScore = some (.fin 60) := by
  norm_num [fallbackAnalysis]

/-- C4 amended: when the AI call fails, report creation still succeeds
with a completed report whose summary is templated from the product
name and whose analysis lists are populated (fixed content); the
fallback sets transparencyScore to Math.floor(Math.random()*40)+40
rather than omitting it, and the final score is still in [0, 100]; the
failure is never propagated to the caller. -/
theorem create_report_ai_failure_fallback (st : Store) (actor : Actor)
    (productId : Nat) (ans : List String) (r1 r2 : ℚ) (p : Product)
    (hp : st.products.find? (fun q => q.id == productId) = some p) :
    ∃ rep st2,
      createReport st actor productId (some ans) (.error ()) r1 r2 =
        (.created rep, st2, [.aiCall, .scorerCall, .reportWrite]) ∧
      rep.summary = "Analysis for " ++ p.name ++
        ": This product shows basic transparency with room for improvement." ∧
      rep.analysis.strengths ≠ [] ∧ rep.analysis.improvements ≠ [] ∧
      rep.analysis.recommendations ≠ [] ∧
      rep.status = .completed ∧
      0 ≤ rep.transparencyScore ∧ rep.transparencyScore ≤ 100 ∧
      st2.reports = st.reports ++ [rep] ∧
      (fallbackAnalysis p.name r1).transparencyScore.isSome = true := by
  unfold createReport
  rw [hp]
  refine ⟨_, _, rfl, rfl, ?_, ?_, ?_, rfl, ?_, ?_, rfl, rfl⟩
  · simp [fallbackAnalysis]
  · simp [fallbackAnalysis]
  · simp [fallbackAnalysis]
  · exact (clamp_0_100_mem _).1
  · exact (clamp_0_100_mem _).2

/-- Witness for create_report_ai_failure_fallback on a one-product store. -/
theorem create_report_ai_failure_fallback_witness :
    ∃ rep st2,
      createReport ⟨[⟨1, "P", "Other"⟩], [], 0⟩ ⟨7, .user⟩ 1 (some ["k"]) (.error ()) 0 0 =
        (.created rep, st2, [.aiCall, .scorerCall, .reportWrite]) ∧
      rep.summary = "Analysis for " ++ "P" ++
        ": This product shows basic transparency with room for improvement." ∧
      rep.analysis.strengths ≠ [] ∧ rep.analysis.improvements ≠ [] ∧
      rep.analysis.recommendations ≠ [] ∧
      rep.status = .completed ∧
      0 ≤ rep.transparencyScore ∧ rep.transparencyScore ≤ 100 ∧
      st2.reports = ([] : List Report) ++ [rep] ∧
      (fallbackAnalysis "P" 0).transparencyScore.isSome = true :=
  create_report_ai_failure_fallback ⟨[⟨1, "P", "Other"⟩], [], 0⟩ ⟨7, .user⟩ 1 ["k"] 0 0 ⟨1, "P", "Other"⟩ rfl

/-- C5: report creation with a productId matching no product returns
NotFound, leaves the store unchanged, and performs no effect — neither
the AI Gateway nor the scorer is invoked and no report is written
(the effect trace is empty), for every AI outcome and random draws. -/
theorem create_report_missing_product (st : Store) (actor : Actor)
    (productId : Nat) (ans : List String) (aiOutcome : Except Unit AnalysisResult)
    (r1 r2 : ℚ)
    (hp : st.products.find? (fun q => q.id == productId) = none) :
    createReport st actor productId (some ans) aiOutcome r1 r2 = (.notFound, st, []) := by
  unfold createReport
  rw [hp]

/-- Witness for create_report_missing_product on an empty store. -/
theorem create_report_missing_product_witness :
    createReport ⟨[], [], 0⟩ ⟨7, .user⟩ 1 (some ["k"]) (.error ()) 0 0 =
      (.notFound, ⟨[], [], 0⟩, []) :=
  create_report_missing_product ⟨[], [], 0⟩ ⟨7, .user⟩ 1 ["k"] (.error ()) 0 0 rfl

/-- C6: for every stored report with an owner, a requester who is
neither that owner nor an admin receives Forbidden from GET, PUT and
DELETE on that report and the store is unchanged; a requester who is
the owner or has role admin is permitted (GET returns the report, PUT
applies the merge, DELETE removes it). -/
theorem report_ownership_enforced (st : Store) (actor : Actor) (id : Nat)
    (r : Report) (owner : Nat) (u : ReportUpdate)
    (hr : st.reports.find? (fun x => x.id == id) = some r)
    (hown : r.userId = some owner)
    (hu : validUpdate u = true) :
    (actor.id ≠ owner → actor.role ≠ .admin →
      getReport st actor id = (.forbidden, st) ∧
      updateReport st actor id u = (.forbidden, st) ∧
      deleteReport st actor id = (.forbidden, st)) ∧
    (actor.id = owner ∨ actor.role = .admin →
      getReport st actor id = (.ok r, st) ∧
      updateReport st actor id u =
        (.ok (applyUpdate r u),
          { st with reports := st.reports.map (fun x => if x.id == id then applyUpdate r u else x) }) ∧
      deleteReport st actor id =
        (.ok (), { st with reports := st.reports.filter (fun x => !(x.id == id)) })) := by
  constructor
  · intro hne hrole
    have hf : ownershipForbidden actor r = true := by
      simp only [ownershipForbidden, hown, Bool.and_eq_true, bne_iff_ne]
      exact ⟨fun hco => hne hco.symm, hrole⟩
    refine ⟨?_, ?_, ?_⟩
    · simp [getReport, hr, hf]
    · simp [updateReport, hu, hr, hf]
    · simp [deleteReport, hr, hf]
  · intro hperm
    have hf : ownershipForbidden actor r = false := by
      rcases hperm with h | h
      · simp [ownershipForbidden, hown, ← h]
      · simp [ownershipForbidden, hown, h]
    refine ⟨?_, ?_, ?_⟩
    · simp [getReport, hr, hf]
    · simp [updateReport, hu, hr, hf]
    · simp [deleteReport, hr, hf]

/-- Witness for report_ownership_enforced: report 5 owned by user 1,
requester user 2 without the admin role. -/
theorem report_ownership_enforced_witness :
    (((⟨2, .user⟩ : Actor).id ≠ 1 → (⟨2, .user⟩ : Actor).role ≠ .admin →
      getReport ⟨[], [⟨5, 0, some 1, "s", 50, ⟨[], [], []⟩, [], .completed⟩], 6⟩ ⟨2, .user⟩ 5 =
        (.forbidden, ⟨[], [⟨5, 0, some 1, "s", 50, ⟨[], [], []⟩, [], .completed⟩], 6⟩) ∧
      updateReport ⟨[], [⟨5, 0, some 1, "s", 50, ⟨[], [], []⟩, [], .completed⟩], 6⟩ ⟨2, .user⟩ 5 {} =
        (.forbidden, ⟨[], [⟨5, 0, some 1, "s", 50, ⟨[], [], []⟩, [], .completed⟩], 6⟩) ∧
      deleteReport ⟨[], [⟨5, 0, some 1, "s", 50, ⟨[], [], []⟩, [], .completed⟩], 6⟩ ⟨2, .user⟩ 5 =
        (.forbidden, ⟨[], [⟨5, 0, some 1, "s", 50, ⟨[], [], []⟩, [], .completed⟩], 6⟩)) ∧
    ((⟨2, .user⟩ : Actor).id = 1 ∨ (⟨2, .user⟩ : Actor).role = .admin →
      getReport ⟨[], [⟨5, 0, some 1, "s", 50, ⟨[], [], []⟩, [], .completed⟩], 6⟩ ⟨2, .user⟩ 5 =
        (.ok ⟨5, 0, some 1, "s", 50, ⟨[], [], []⟩, [], .completed⟩,
         ⟨[], [⟨5, 0, some 1, "s", 50, ⟨[], [], []⟩, [], .completed⟩], 6⟩) ∧
      updateReport ⟨[], [⟨5, 0, some 1, "s", 50, ⟨[], [], []⟩, [], .completed⟩], 6⟩ ⟨2, .user⟩ 5 {} =
        (.ok (applyUpdate ⟨5, 0, some 1, "s", 50, ⟨[], [], []⟩, [], .completed⟩ {}),
         ⟨[], [⟨5, 0, some 1, "s", 50, ⟨[], [], []⟩, [], .completed⟩].map
            (fun x => if x.id == 5 then applyUpdate ⟨5, 0, some 1, "s", 50, ⟨[], [], []⟩, [], .completed⟩ {} else x), 6⟩) ∧
      deleteReport ⟨[], [⟨5, 0, some 1, "s", 50, ⟨[], [], []⟩, [], .completed⟩], 6⟩ ⟨2, .user⟩ 5 =
        (.ok (), ⟨[], [⟨5, 0, some 1, "s", 50, ⟨[], [], []⟩, [], .completed⟩].filter
            (fun x => !(x.id == 5)), 6⟩))) :=
  report_ownership_enforced ⟨[], [⟨5, 0, some 1, "s", 50, ⟨[], [], []⟩, [], .completed⟩], 6⟩
    ⟨2, .user⟩ 5 ⟨5, 0, some 1, "s", 50, ⟨[], [], []⟩, [], .completed⟩ 1 {} rfl rfl rfl

/-- C7: every report returned by GET /api/reports belongs to the
caller — its owning user reference equals the caller's user id — for
every store content and every page/limit/status/minScore/maxScore
combination. -/
theorem list_reports_scoped (st : Store) (uid : Nat) (q : ListQuery)
    (r : Report) (h : r ∈ listReports st uid q) :
    r.userId = some uid := by
  unfold listReports at h
  have h1 : r ∈ st.reports.filter (matchesFilter uid q) :=
    List.drop_subset _ _ (List.take_subset _ _ h)
  have h2 := (List.mem_filter.mp h1).2
  unfold matchesFilter at h2
  simp only [Bool.and_eq_true] at h2
  exact eq_of_beq h2.1.1.1

/-- Witness for list_reports_scoped on a one-report store. -/
theorem list_reports_scoped_witness :
    (⟨0, 0, some 1, "s", 50, ⟨[], [], []⟩, [], .completed⟩ : Report).userId = some 1 :=
  list_reports_scoped ⟨[], [⟨0, 0, some 1, "s", 50, ⟨[], [], []⟩, [], .completed⟩], 1⟩ 1 {}
    ⟨0, 0, some 1, "s", 50, ⟨[], [], []⟩, [], .completed⟩ (by decide)

/-- C8: when the identity-scoped report set is empty the stats
overview succeeds and returns the zeroed defaults: count 0,
average/max/min transparencyScore 0, and zero counts for the completed,
pending and draft statuses. -/
theorem stats_empty_defaults (st : Store) (uid : Option Nat)
    (h : scopedReports st uid = []) :
    statsOverview st uid = ⟨0, 0, 0, 0, 0, 0, 0⟩ := by
  unfold statsOverview
  rw [h]

/-- Witness for stats_empty_defaults on an empty store. -/
theorem stats_empty_defaults_witness :
    statsOverview ⟨[], [], 0⟩ (some 1) = ⟨0, 0, 0, 0, 0, 0, 0⟩ :=
  stats_empty_defaults ⟨[], [], 0⟩ (some 1) rfl

/-- C9 counterexample: a report with transparencyScore 100 is counted
in the default Other bucket of the $bucket stage, not in the [80,100]
bucket — the upper boundary 100 is exclusive. -/
theorem score_100_bucket_counterexample :
    scoreDistribution ⟨[], [⟨0, 0, some 1, "s", 100, ⟨[], [], []⟩, [], .completed⟩], 1⟩ (some 1) .b80 = 0 ∧
    scoreDistribution ⟨[], [⟨0, 0, some 1, "s", 100, ⟨[], [], []⟩, [], .completed⟩], 1⟩ (some 1) .other = 1 := by
  decide

/-- C9 amended: the histogram buckets are the half-open ranges
[0,20), [20,40), [40,60), [60,80) and [80,100); a score of exactly 100,
like any score outside [0,100), is counted in the default Other bucket. -/
theorem bucket_ranges_amended (s : ℤ) :
    (bucketOf s = .b0 ↔ 0 ≤ s ∧ s < 20) ∧
    (bucketOf s = .b20 ↔ 20 ≤ s ∧ s < 40) ∧
    (bucketOf s = .b40 ↔ 40 ≤ s ∧ s < 60) ∧
    (bucketOf s = .b60 ↔ 60 ≤ s ∧ s < 80) ∧
    (bucketOf s = .b80 ↔ 80 ≤ s ∧ s < 100) ∧
    (bucketOf s = .other ↔ s < 0 ∨ 100 ≤ s) := by
  unfold bucketOf
  split_ifs <;> refine ⟨?_, ?_, ?_, ?_, ?_, ?_⟩ <;> simp_all <;> omega

end Veriscope
